import Mathlib

/-!
Verification development for the combined YouTube collection & rating tool
(`src/combined_tool.py`).  The Python code is shallowly embedded: Python
strings become `List Char`, Python floats become `ℚ` (exact rationals; every
claim checked here is robust to this idealisation), Python ints become `ℤ`
or `ℕ`, dictionaries become structures, and the stateful retry loop of the
Invidious client becomes explicit state passing over a list of instance
records.  Network effects are modelled by passing the outcome of every
would-be HTTP interaction as an explicit argument.
-/

/-! ## Python string primitives on `List Char` -/

/-- ASCII lower-casing of one character (model of what `str.lower` does on the
ASCII keyword material the tool works with). -/
def lowerChar (c : Char) : Char :=
  if 65 ≤ c.toNat ∧ c.toNat ≤ 90 then Char.ofNat (c.toNat + 32) else c

/-- ASCII upper-casing of one character (model of `str.upper`). -/
def upperChar (c : Char) : Char :=
  if 97 ≤ c.toNat ∧ c.toNat ≤ 122 then Char.ofNat (c.toNat - 32) else c

/-- Model of Python `str.lower()`. -/
def lowerStr (s : List Char) : List Char := s.map lowerChar

/-- Model of Python `str.upper()`. -/
def upperStr (s : List Char) : List Char := s.map upperChar

/-- Python whitespace as stripped by `str.strip()`. -/
def isPySpace (c : Char) : Bool :=
  c.toNat == 32 || (9 ≤ c.toNat && c.toNat ≤ 13)

/-- Model of Python `str.strip()`. -/
def stripStr (s : List Char) : List Char :=
  ((s.dropWhile isPySpace).reverse.dropWhile isPySpace).reverse

/-- Does `s` start with `p`?  (Helper for substring containment.) -/
def startsWithB : List Char → List Char → Bool
  | [], _ => true
  | _ :: _, [] => false
  | a :: ps, b :: ss => a == b && startsWithB ps ss

/-- Model of Python `needle in haystack` (substring containment). -/
def substrB (p : List Char) : List Char → Bool
  | [] => p.isEmpty
  | b :: ss => startsWithB p (b :: ss) || substrB p ss

/-- Model of Python `' '.join(parts)`. -/
def joinSpace : List (List Char) → List Char
  | [] => []
  | [s] => s
  | s :: t :: rest => s ++ ' ' :: joinSpace (t :: rest)

/-- Model of Python `s.split(',')` (note: `''.split(',') == ['']`). -/
def splitComma : List Char → List (List Char)
  | [] => [[]]
  | c :: cs =>
    if c == ',' then [] :: splitComma cs
    else
      match splitComma cs with
      | [] => [[c]]
      | g :: gs => (c :: g) :: gs

/-- Model of Python `s.replace(c, '')` for a single character `c`. -/
def removeChar (c : Char) (s : List Char) : List Char :=
  s.filter (fun d => d != c)

/-! ## Invidious client state (`InvidiousInstance`, `InvidiousAPI`) -/

/-- State of one mirror endpoint — embedding of the `InvidiousInstance`
dataclass.  `failure_count` starts at 0 and `max(0, n-1)` is `ℕ`
subtraction, so `ℕ` is exact; `last_success` (a wall-clock timestamp) is
omitted because no claim mentions it and nothing in the embedded code reads
it back. -/
structure InvidiousInstance where
  url : List Char
  failure_count : ℕ
  response_time : ℚ
  is_available : Bool
deriving DecidableEq

/-- Outcome of one would-be `session.get` issued by `_make_request`. -/
inductive RequestOutcome where
  | http (status : ℕ) (payload : List Char) (rt : ℚ)
  | timeout
  | connectionError
  | otherException
deriving DecidableEq

/-- What the body of the `for attempt ...` loop does after handling one
response: either the function returns (`finished`), or execution falls
through to the next attempt (`nextAttempt`, i.e. `continue` or the shared
backoff-and-loop path). -/
inductive AttemptStep where
  | finished (result : Option (List Char))
  | nextAttempt
deriving DecidableEq

/-- Embedding of the response/exception handling of one loop iteration of
`InvidiousAPI._make_request` (lines 157–197): updates the selected instance
and says whether the call returns or retries. -/
def applyOutcome (o : RequestOutcome) (inst : InvidiousInstance) :
    InvidiousInstance × AttemptStep :=
  match o with
  | .http status payload rt =>
    if status = 200 then
      ({ inst with response_time := rt, failure_count := inst.failure_count - 1 },
        .finished (some payload))
    else if status = 429 then
      ({ inst with failure_count := inst.failure_count + 1 }, .nextAttempt)
    else if 500 ≤ status then
      ({ inst with failure_count := inst.failure_count + 1, is_available := false },
        .nextAttempt)
    else
      (inst, .finished none)
  | .timeout =>
    ({ inst with failure_count := inst.failure_count + 1 }, .nextAttempt)
  | .connectionError =>
    ({ inst with is_available := false, failure_count := inst.failure_count + 1 },
      .nextAttempt)
  | .otherException =>
    ({ inst with failure_count := inst.failure_count + 1 }, .nextAttempt)

/-- The outcomes on which `applyOutcome` increments `failure_count`:
HTTP 429, HTTP ≥ 500, timeout, connection error, any other exception. -/
def RequestOutcome.isFailure : RequestOutcome → Bool
  | .http status _ _ => status == 429 || decide (500 ≤ status)
  | _ => true

/-- Outcome of one probe of `_initial_health_check` against one instance. -/
inductive ProbeOutcome where
  | ok (rt : ℚ)
  | badStatus
  | exc
deriving DecidableEq

/-- Embedding of what `_initial_health_check` (lines 109–126) does to one
instance, given the probe outcome. -/
def healthCheckUpdate (p : ProbeOutcome) (inst : InvidiousInstance) : InvidiousInstance :=
  match p with
  | .ok rt => { inst with response_time := rt, is_available := true }
  | .badStatus => { inst with is_available := false }
  | .exc => { inst with is_available := false, failure_count := inst.failure_count + 1 }

/-- Run the recovery health check over the whole instance list, the probe
outcome being given per index. -/
def runHealthCheckGo (probe : ℕ → ProbeOutcome) :
    ℕ → List InvidiousInstance → List InvidiousInstance
  | _, [] => []
  | j, i :: is => healthCheckUpdate (probe j) i :: runHealthCheckGo probe (j + 1) is

/-- Recovery health check (`_initial_health_check` as invoked from
`_get_best_instance`). -/
def runHealthCheck (probe : ℕ → ProbeOutcome) (insts : List InvidiousInstance) :
    List InvidiousInstance :=
  runHealthCheckGo probe 0 insts

/-- The sort key comparison of `_get_best_instance`:
`(failure_count, response_time)` lexicographically. -/
def instKeyLt (a b : InvidiousInstance) : Bool :=
  a.failure_count < b.failure_count ||
    (a.failure_count == b.failure_count && decide (a.response_time < b.response_time))

/-- Pair every instance with its index. -/
def enumFrom : ℕ → List InvidiousInstance → List (ℕ × InvidiousInstance)
  | _, [] => []
  | j, i :: is => (j, i) :: enumFrom (j + 1) is

/-- The `available_instances` list of `_get_best_instance`, with original
indices kept so that in-place mutation of the chosen instance can be
modelled. -/
def availableIndexed (insts : List InvidiousInstance) : List (ℕ × InvidiousInstance) :=
  (enumFrom 0 insts).filter (fun p => p.2.is_available)

/-- First element of the stable sort by `(failure_count, response_time)`:
the earliest entry whose key is minimal.  `sort` in the source is Python's
stable sort, so `sorted[0]` is exactly this element. -/
def pickFirstMin : List (ℕ × InvidiousInstance) → Option (ℕ × InvidiousInstance)
  | [] => none
  | p :: ps => some (ps.foldl (fun best q => if instKeyLt q.2 best.2 then q else best) p)

/-- Embedding of `InvidiousAPI._get_best_instance` (lines 131–144).  Returns
the possibly-updated instance list (the recovery health check mutates it)
and the index of the chosen instance, or `none` when even after recovery no
instance is available. -/
def getBestInstance (probe : ℕ → ProbeOutcome) (insts : List InvidiousInstance) :
    List InvidiousInstance × Option ℕ :=
  match pickFirstMin (availableIndexed insts) with
  | some p => (insts, some p.1)
  | none =>
    let instsR := runHealthCheck probe insts
    match pickFirstMin (availableIndexed instsR) with
    | some p => (instsR, some p.1)
    | none => (instsR, none)

/-- Embedding of the attempt loop of `InvidiousAPI._make_request`
(lines 150–203).  `fuel` is the number of attempts still allowed,
`attempt` the current index; `probe attempt j` is the recovery-probe
outcome for instance `j` during attempt `attempt`, and `outcome attempt`
the HTTP outcome of that attempt's `session.get`.  The result carries the
returned payload (`none` both for exhaustion and for the early-return
paths), the final instance list, and the number of `session.get` calls the
loop issued. -/
def makeRequestGo (probe : ℕ → ℕ → ProbeOutcome) (outcome : ℕ → RequestOutcome) :
    ℕ → ℕ → List InvidiousInstance →
    Option (List Char) × List InvidiousInstance × ℕ
  | 0, _, insts => (none, insts, 0)
  | fuel + 1, attempt, insts =>
    match getBestInstance (probe attempt) insts with
    | (insts1, none) => (none, insts1, 0)
    | (insts1, some j) =>
      match insts1.get? j with
      | none => (none, insts1, 0)
      | some inst =>
        match applyOutcome (outcome attempt) inst with
        | (inst2, .finished r) => (r, insts1.set j inst2, 1)
        | (inst2, .nextAttempt) =>
          let r2 := makeRequestGo probe outcome fuel (attempt + 1) (insts1.set j inst2)
          (r2.1, r2.2.1, r2.2.2 + 1)

/-- Embedding of `InvidiousAPI._make_request`: run the loop for
`max_retries` attempts starting from attempt 0. -/
def makeRequest (maxRetries : ℕ) (probe : ℕ → ℕ → ProbeOutcome)
    (outcome : ℕ → RequestOutcome) (insts : List InvidiousInstance) :
    Option (List Char) × List InvidiousInstance × ℕ :=
  makeRequestGo probe outcome maxRetries 0 insts

/-! ## Numeric parsing (models of Python `int()` / `float()`) -/

/-- ASCII digit test. -/
def isDigitB (c : Char) : Bool :=
  48 ≤ c.toNat && c.toNat ≤ 57

/-- Value of a digit string (the caller checks the digits). -/
def digitsToNat (cs : List Char) : ℕ :=
  cs.foldl (fun acc c => acc * 10 + (c.toNat - 48)) 0

/-- Unsigned part of a Python `float()` literal: `digits`, `digits.digits`,
`digits.`, `.digits`.  Exotic accepted forms (exponents, `inf`, `nan`,
underscores) are modelled as parse failures; no claim's truth value depends
on them (both sides land in the same score bucket). -/
def pyFloatCore (cs : List Char) : Option ℚ :=
  let intPart := cs.takeWhile isDigitB
  let rest := cs.dropWhile isDigitB
  match rest with
  | [] => if intPart.isEmpty then none else some (digitsToNat intPart : ℚ)
  | '.' :: frac =>
    if frac.all isDigitB && !(intPart.isEmpty && frac.isEmpty) then
      some ((digitsToNat intPart : ℚ) + (digitsToNat frac : ℚ) / (10 : ℚ) ^ frac.length)
    else none
  | _ => none

/-- Model of Python `float(s)` on the strings the tool feeds it. -/
def pyFloat? (s : List Char) : Option ℚ :=
  match stripStr s with
  | '-' :: rest => (pyFloatCore rest).map (fun x => -x)
  | '+' :: rest => pyFloatCore rest
  | rest => pyFloatCore rest

/-- Unsigned part of a Python `int()` literal. -/
def pyIntCore (cs : List Char) : Option ℤ :=
  if !cs.isEmpty && cs.all isDigitB then some (digitsToNat cs : ℤ) else none

/-- Model of Python `int(s)` for string input. -/
def pyInt? (s : List Char) : Option ℤ :=
  match stripStr s with
  | '-' :: rest => (pyIntCore rest).map (fun x => -x)
  | '+' :: rest => pyIntCore rest
  | rest => pyIntCore rest

/-- Shorthand: a Lean string literal as a Python string value. -/
def pyS (s : String) : List Char := s.toList

/-! ## Video records -/

/-- The fields of the video dictionary that the validation and scoring code
reads.  Numeric fields carry the value after the `int(...)` coercion the
source applies (an unparseable sheet cell coerces to `0`, which is just
another value of the field); `channel_subscriber_count` and
`like_dislike_ratio` stay strings because the source parses them itself,
`none` modelling an absent key (`dict.get` default). -/
structure VideoData where
  title : List Char
  description_preview : List Char
  duration_seconds : ℤ
  view_count : ℤ
  like_count : ℤ
  comment_count : ℤ
  content_warning_flags : List Char
  channel_subscriber_count : Option (List Char)
  like_dislike_ratio : Option (List Char)
  video_quality_available : List Char
  caption_languages : List Char
  channel_verified : List Char
  estimated_age_rating : List Char
deriving DecidableEq

/-- The per-category keyword lists of
`EnhancedVideoCollector.validate_enhanced_video` (lines 613-617). -/
def validateCategoryKeywords (category : List Char) : List (List Char) :=
  if category = pyS "heartwarming" then
    [pyS "heartwarming", pyS "touching", pyS "emotional", pyS "reunion", pyS "surprise"]
  else if category = pyS "funny" then
    [pyS "funny", pyS "comedy", pyS "humor", pyS "hilarious", pyS "joke"]
  else if category = pyS "traumatic" then
    [pyS "accident", pyS "disaster", pyS "emergency", pyS "rescue", pyS "shocking"]
  else []

/-- Embedding of `EnhancedVideoCollector.validate_enhanced_video`
(lines 579-623).  The reason strings keep the source's wording but elide the
interpolated numbers; the claims only inspect acceptance and non-emptiness
of the reason. -/
def validate_enhanced_video (video_data : VideoData) (category : List Char) :
    Bool × List Char :=
  if video_data.duration_seconds < 90 then (false, pyS "Too short: <90s")
  else if video_data.view_count < 10000 then (false, pyS "Low views: <10,000")
  else
    let content_warnings := splitComma video_data.content_warning_flags
    if [pyS "violence", pyS "disturbing", pyS "adult_content"].any
        (fun w => content_warnings.contains w) then
      (false, pyS "Content warnings")
    else
      let title_desc := lowerStr (video_data.title ++ ' ' :: video_data.description_preview)
      if (validateCategoryKeywords category).any (fun kw => substrB kw title_desc) then
        (true, pyS "Valid")
      else (false, pyS "No category keywords found")

/-! ## Controlled comment fetching (`EnhancedVideoRater.fetch_controlled_comments`) -/

/-- Result of `fetch_controlled_comments`; the sentiment tallies of the
source are accumulated independently of the comment list and no claim reads
them, so they are not modelled. -/
structure CommentFetchResult where
  comments : List (List Char)
  total_fetched : ℕ
  target_reached : Bool
deriving DecidableEq

/-- One processing loop over the items of a comment-thread response: keep a
comment iff its stripped text is longer than 5 characters and it is not
already present.  `cap = some t` models the loops that break once `t`
comments are held (second and third API call); the first loop has no break
(`cap = none`). -/
def collectComments (cap : Option ℕ) : List (List Char) → List (List Char) → List (List Char)
  | acc, [] => acc
  | acc, t :: ts =>
    match cap with
    | some c =>
      if c ≤ acc.length then acc
      else if 5 < (stripStr t).length ∧ t ∉ acc then
        collectComments (some c) (acc ++ [t]) ts
      else collectComments (some c) acc ts
    | none =>
      if 5 < (stripStr t).length ∧ t ∉ acc then
        collectComments none (acc ++ [t]) ts
      else collectComments none acc ts

/-- First API call of `fetch_controlled_comments` (relevance order,
lines 710-730): process the items of the response when it was a 200
(`none` models a non-200 response, whose items are not processed).  This
loop has no break on the target. -/
def fetchPass1 (resp1 : Option (List (List Char))) : List (List Char) :=
  match resp1 with
  | some items => collectComments none [] items
  | none => []

/-- Second API call (time order, lines 732-753), issued only while the
target is not yet reached; its loop breaks at the target. -/
def fetchPass2 (resp2 : Option (List (List Char))) (target_count : ℕ)
    (c1 : List (List Char)) : List (List Char) :=
  if c1.length < target_count then
    match resp2 with
    | some items => collectComments (some target_count) c1 items
    | none => c1
  else c1

/-- Third API call (lines 755-779), issued only while the target is not yet
reached and the previous response carried a nonempty `nextPageToken`
(modelled by `hasPageToken`). -/
def fetchPass3 (resp3 : Option (List (List Char))) (hasPageToken : Bool) (target_count : ℕ)
    (c2 : List (List Char)) : List (List Char) :=
  if c2.length < target_count ∧ hasPageToken = true then
    match resp3 with
    | some items => collectComments (some target_count) c2 items
    | none => c2
  else c2

/-- Embedding of `EnhancedVideoRater.fetch_controlled_comments`
(lines 703-801): the three passes followed by the final
`comments[:target_count]` truncation. -/
def fetch_controlled_comments (resp1 resp2 resp3 : Option (List (List Char)))
    (hasPageToken : Bool) (target_count : ℕ) : CommentFetchResult :=
  let finalComments :=
    (fetchPass3 resp3 hasPageToken target_count
      (fetchPass2 resp2 target_count (fetchPass1 resp1))).take target_count
  { comments := finalComments
    total_fetched := finalComments.length
    target_reached := decide (finalComments.length = target_count) }

/-! ## Comment analysis (`EnhancedVideoRater.analyze_comments_for_category`) -/

/-- Number of words of the list occurring as substrings of `text` — the
`sum(1 for word in words if word in all_text)` pattern of the source. -/
def countWordsIn (words : List (List Char)) (text : List Char) : ℕ :=
  (words.filter (fun w => substrB w text)).length

/-- `positive_emotions` of the heartwarming branch (line 941). -/
def heartwarmingPositiveEmotions : List (List Char) :=
  [pyS "crying", pyS "tears", pyS "emotional", pyS "beautiful", pyS "touching",
   pyS "moving", pyS "wholesome"]

/-- `authenticity_words` of the heartwarming branch (line 942). -/
def heartwarmingAuthenticityWords : List (List Char) :=
  [pyS "real", pyS "genuine", pyS "authentic", pyS "natural"]

/-- `fake_indicators` of the heartwarming branch (line 943). -/
def heartwarmingFakeIndicators : List (List Char) :=
  [pyS "fake", pyS "staged", pyS "acting", pyS "scripted"]

/-- `humor_words` of the funny branch (line 968). -/
def funnyHumorWords : List (List Char) :=
  [pyS "laugh", pyS "funny", pyS "hilarious", pyS "lol", pyS "haha", pyS "comedy", pyS "joke"]

/-- `boring_words` of the funny branch (line 970). -/
def funnyBoringWords : List (List Char) :=
  [pyS "boring", pyS "not funny", pyS "stupid", pyS "lame"]

/-- `empathy_words` of the traumatic branch (line 995). -/
def traumaticEmpathyWords : List (List Char) :=
  [pyS "prayers", pyS "sorry", pyS "sad", pyS "terrible", pyS "awful", pyS "devastating"]

/-- `concern_words` of the traumatic branch (line 996). -/
def traumaticConcernWords : List (List Char) :=
  [pyS "hope everyone ok", pyS "what happened", pyS "is everyone safe"]

/-- `inappropriate_words` of the traumatic branch (line 997). -/
def traumaticInappropriateWords : List (List Char) :=
  [pyS "lol", pyS "funny", pyS "cool", pyS "awesome"]

/-- The four keyword-ratio component scores of
`EnhancedVideoRater.analyze_comments_for_category` (lines 925-1033).  The
`timestamped_moments` extraction (a regex scan) and the `breakdown` counters
are returned alongside these in the source but feed no claim and are not
modelled. -/
structure CommentAnalysis where
  category_validation : ℚ
  emotional_alignment : ℚ
  authenticity_support : ℚ
  engagement_quality : ℚ
deriving DecidableEq

/-- Embedding of `analyze_comments_for_category`. -/
def analyze_comments_for_category (comments : List (List Char)) (category : List Char) :
    CommentAnalysis :=
  if comments = [] then ⟨0, 0, 0, 0⟩
  else
    let all_text := lowerStr (joinSpace comments)
    let n : ℚ := comments.length
    if category = pyS "heartwarming" then
      let positive_count : ℚ := countWordsIn heartwarmingPositiveEmotions all_text
      let auth_count : ℚ := countWordsIn heartwarmingAuthenticityWords all_text
      let fake_count : ℚ := countWordsIn heartwarmingFakeIndicators all_text
      { category_validation := min (positive_count / max (n * (5/100)) 1) 1
        emotional_alignment := min (positive_count / max (n * (3/100)) 1) 1
        authenticity_support := max (1/10) (min (auth_count / max (fake_count + 1) 1 * (1/2)) 1)
        engagement_quality := min (positive_count / max n 1) 1 }
    else if category = pyS "funny" then
      let humor_count : ℚ := countWordsIn funnyHumorWords all_text
      let boring_count : ℚ := countWordsIn funnyBoringWords all_text
      { category_validation := min (humor_count / max (n * (3/100)) 1) 1
        emotional_alignment := min (humor_count / max (n * (2/100)) 1) 1
        authenticity_support :=
          if humor_count = boring_count then 1/2
          else min (4/5) (max (1/5) (humor_count / max (boring_count + 1) 1 * (2/5)))
        engagement_quality := min (humor_count / max n 1) 1 }
    else if category = pyS "traumatic" then
      let empathy_count : ℚ := countWordsIn traumaticEmpathyWords all_text
      let concern_count : ℚ := countWordsIn traumaticConcernWords all_text
      let inappropriate_count : ℚ := countWordsIn traumaticInappropriateWords all_text
      let appropriate_total := empathy_count + concern_count
      let validation0 := min (appropriate_total / max (n * (5/100)) 1) 1
      { category_validation :=
          if appropriate_total < inappropriate_count then validation0 * (3/10) else validation0
        emotional_alignment := min (empathy_count / max (n * (3/100)) 1) 1
        authenticity_support :=
          min (4/5) (max (1/5) (appropriate_total / max (inappropriate_count + 1) 1 * (3/10)))
        engagement_quality := min (appropriate_total / max n 1) 1 }
    else ⟨1/2, 1/2, 1/2, 1/2⟩

/-! ## Component scores (`EnhancedVideoRater.calculate_*_score`) -/

/-- The subscriber-count thresholds of `channel_thresholds` (lines 688-694)
mapped to the score ladder of lines 840-851. -/
def channelAuthorityFromCount (subscriber_count : ℚ) : ℚ :=
  if 10000000 ≤ subscriber_count then 1
  else if 1000000 ≤ subscriber_count then 4/5
  else if 100000 ≤ subscriber_count then 3/5
  else if 10000 ≤ subscriber_count then 2/5
  else if 1000 ≤ subscriber_count then 1/5
  else 1/10

/-- Embedding of `EnhancedVideoRater.calculate_channel_authority_score`
(lines 819-855).  A `float()` failure inside the `M`/`K` branch raises and
is caught by the outer handler, which returns `0.1`; a failure in the plain
branch is caught by the inner handler, which leaves the count at `0`. -/
def calculate_channel_authority_score (video_data : VideoData) : ℚ :=
  let text0 := video_data.channel_subscriber_count.getD (pyS "0")
  if text0 = [] then channelAuthorityFromCount 0
  else
    let text := removeChar ',' (upperStr text0)
    if text.contains 'M' then
      match pyFloat? (removeChar 'M' text) with
      | some x => channelAuthorityFromCount (x * 1000000)
      | none => 1/10
    else if text.contains 'K' then
      match pyFloat? (removeChar 'K' text) with
      | some x => channelAuthorityFromCount (x * 1000)
      | none => 1/10
    else
      match pyFloat? text with
      | some x => channelAuthorityFromCount x
      | none => channelAuthorityFromCount 0

/-- Embedding of `EnhancedVideoRater.calculate_engagement_metrics_score`
(lines 857-888). -/
def calculate_engagement_metrics_score (video_data : VideoData) : ℚ :=
  if video_data.view_count = 0 then 0
  else
    let like_ratio := ((video_data.like_count : ℚ) / (video_data.view_count : ℚ)) * 1000
    let comment_ratio := ((video_data.comment_count : ℚ) / (video_data.view_count : ℚ)) * 1000
    let engagement_score := min ((like_ratio + comment_ratio * 2) / 20) 1
    let engagement_bonus :=
      match pyFloat? (video_data.like_dislike_ratio.getD (pyS "0")) with
      | some r => engagement_score + r * (1/5)
      | none => engagement_score
    min engagement_bonus 1

/-- Embedding of `EnhancedVideoRater.calculate_technical_quality_score`
(lines 890-923).  An `int()` failure on any nonempty quality label raises
and is caught by the outer handler, which returns `0.0`. -/
def calculate_technical_quality_score (video_data : VideoData) : ℚ :=
  let video_qualities := splitComma video_data.video_quality_available
  if (video_qualities.filter (fun q => !q.isEmpty)).any
      (fun q => (pyInt? (removeChar 'p' q)).isNone) then 0
  else
    let hd_qualities := video_qualities.filter
      (fun q => !q.isEmpty && decide (720 ≤ (pyInt? (removeChar 'p' q)).getD 0))
    let score1 : ℚ := if hd_qualities.isEmpty then 0 else 1/2
    let caption_languages := (splitComma video_data.caption_languages).filter
      (fun lang => !(stripStr lang).isEmpty)
    let score2 := score1 +
      (if 3 ≤ caption_languages.length then 3/10
       else if 1 ≤ caption_languages.length then 1/5
       else 0)
    let score3 := score2 +
      (if lowerStr video_data.channel_verified = pyS "true" then 1/10 else 0)
    let score4 := score3 +
      (if video_data.estimated_age_rating = pyS "G" ∨
          video_data.estimated_age_rating = pyS "PG" then 1/10 else 0)
    min score4 1

/-! ## Final score (`EnhancedVideoRater.calculate_enhanced_score`) -/

/-- The per-category keyword lists of the content-match component
(lines 1108-1112) — a different table from the validator's. -/
def scoreCategoryKeywords (category : List Char) : List (List Char) :=
  if category = pyS "heartwarming" then
    [pyS "heartwarming", pyS "touching", pyS "emotional", pyS "reunion", pyS "surprise",
     pyS "family", pyS "love"]
  else if category = pyS "funny" then
    [pyS "funny", pyS "comedy", pyS "humor", pyS "hilarious", pyS "joke", pyS "laugh",
     pyS "entertaining"]
  else if category = pyS "traumatic" then
    [pyS "accident", pyS "tragedy", pyS "disaster", pyS "emergency", pyS "breaking news",
     pyS "shocking"]
  else []

/-- The dictionary returned by `calculate_enhanced_score` (lines 1159-1166),
with the five component scores flattened into fields. -/
structure ScoreResult where
  final_score : ℚ
  confidence : ℚ
  comment_analysis : ℚ
  engagement_metrics : ℚ
  channel_authority : ℚ
  content_match : ℚ
  technical_quality : ℚ
  comments_analyzed_count : ℕ
deriving DecidableEq

/-- Embedding of `EnhancedVideoRater.calculate_enhanced_score`
(lines 1087-1166): five weighted components (0.60 / 0.15 / 0.05 / 0.15 /
0.05), category base score, ×7 scaling, validation bonus (+1.0 when
category_validation > 0.8), authenticity penalty (×0.6 when
authenticity_support < 0.2), and the final `min(·, 10.0)` clamp. -/
def calculate_enhanced_score (video_data : VideoData) (comments_data : CommentFetchResult)
    (category : List Char) : ScoreResult :=
  let comments_analysis := analyze_comments_for_category comments_data.comments category
  let comment_score := comments_analysis.category_validation * (2/5) +
    comments_analysis.emotional_alignment * (3/10) +
    comments_analysis.authenticity_support * (3/10)
  let engagement_score := calculate_engagement_metrics_score video_data
  let authority_score := calculate_channel_authority_score video_data
  let title_desc_text := lowerStr (video_data.title ++ ' ' :: video_data.description_preview)
  let keyword_matches : ℚ := countWordsIn (scoreCategoryKeywords category) title_desc_text
  let content_match_score := min (keyword_matches * (1/5)) 1
  let technical_score := calculate_technical_quality_score video_data
  let weighted_score := comment_score * (3/5) + engagement_score * (3/20) +
    authority_score * (1/20) + content_match_score * (3/20) + technical_score * (1/20)
  let base_score : ℚ :=
    if category = pyS "heartwarming" then 3
    else if category = pyS "funny" then 5/2
    else if category = pyS "traumatic" then 4
    else 3
  let fs1 := base_score + weighted_score * 7
  let fs2 := if (4/5 : ℚ) < comments_analysis.category_validation then fs1 + 1 else fs1
  let fs3 := if comments_analysis.authenticity_support < (1/5 : ℚ) then fs2 * (3/5) else fs2
  let conf1 : ℚ := 3/10
  let conf2 := if 300 ≤ comments_data.comments.length then conf1 + 3/10 else conf1
  let conf3 := if 400 ≤ comments_data.comments.length then conf2 + 1/5 else conf2
  let conf4 := if (3/5 : ℚ) < comments_analysis.category_validation then conf3 + 1/5 else conf3
  { final_score := min fs3 10
    confidence := min conf4 1
    comment_analysis := comment_score
    engagement_metrics := engagement_score
    channel_authority := authority_score
    content_match := content_match_score
    technical_quality := technical_score
    comments_analyzed_count := comments_data.comments.length }

/-! ## Spec-side reading of the category-validation formula (for C5)

The spec describes `keyword_hits` as the number of fetched COMMENTS that
contain a category keyword; the source instead counts how many KEYWORDS of
the fixed list occur in the joined text.  The two definitions below follow
the spec's words so the code can be compared against them. -/

/-- Modelled from the spec: "keyword_hits counts the fetched comments
containing a category keyword" (heartwarming keyword set). -/
def specKeywordHitsHeartwarming (comments : List (List Char)) : ℕ :=
  (comments.filter
    (fun c => heartwarmingPositiveEmotions.any (fun w => substrB w (lowerStr c)))).length

/-- Modelled from the spec: `min(keyword_hits / max(comment_count * k, 1), 1.0)`
with `k = 0.05` for heartwarming category validation. -/
def specCategoryValidationHeartwarming (comments : List (List Char)) : ℚ :=
  min ((specKeywordHitsHeartwarming comments : ℚ) /
    max ((comments.length : ℚ) * (5/100)) 1) 1

/-! ## Concrete records used in counterexamples and witnesses -/

/-- A candidate that passes every validation check except that its duration
is above the spec's upper bound: 601 s, 50 000 views, a "funny" keyword in
the title, no content warnings. -/
def video601 : VideoData :=
  { title := pyS "funny cats compilation"
    description_preview := []
    duration_seconds := 601
    view_count := 50000
    like_count := 0
    comment_count := 0
    content_warning_flags := []
    channel_subscriber_count := none
    like_dislike_ratio := none
    video_quality_available := []
    caption_languages := []
    channel_verified := []
    estimated_age_rating := [] }

/-- Same candidate with duration 89 s. -/
def video89 : VideoData := { video601 with duration_seconds := 89 }

/-- Same candidate with duration 90 s. -/
def video90 : VideoData := { video601 with duration_seconds := 90 }

/-- Same candidate with duration 600 s. -/
def video600 : VideoData := { video601 with duration_seconds := 600 }

/-- A record with a negative like count (nothing in the source constrains the
coerced sheet values to be non-negative). -/
def videoNegativeLikes : VideoData := { video601 with view_count := 1, like_count := -100 }

/-- A record whose subscriber-count cell holds a string `float()` cannot
parse. -/
def videoUnparseableSubs : VideoData :=
  { video601 with channel_subscriber_count := some (pyS "N/A") }

/-! ## Ordering lemmas for the selection key -/

theorem instKeyLt_iff (a b : InvidiousInstance) :
    instKeyLt a b = true ↔
      (a.failure_count < b.failure_count ∨
        (a.failure_count = b.failure_count ∧ a.response_time < b.response_time)) := by
  simp [instKeyLt]

theorem instKeyLt_irrefl (a : InvidiousInstance) : instKeyLt a a = false := by
  simp [instKeyLt]

theorem instKeyLt_trans {a b c : InvidiousInstance} (h1 : instKeyLt a b = true)
    (h2 : instKeyLt b c = true) : instKeyLt a c = true := by
  rw [instKeyLt_iff] at *
  rcases h1 with h1 | ⟨h1e, h1r⟩ <;> rcases h2 with h2 | ⟨h2e, h2r⟩
  · exact Or.inl (by omega)
  · exact Or.inl (by omega)
  · exact Or.inl (by omega)
  · exact Or.inr ⟨by omega, h1r.trans h2r⟩

theorem instKeyLt_of_not_lt_of_lt {a b c : InvidiousInstance}
    (h1 : instKeyLt a b = false) (h2 : instKeyLt a c = true) : instKeyLt b c = true := by
  have h1' : ¬ (a.failure_count < b.failure_count ∨
      (a.failure_count = b.failure_count ∧ a.response_time < b.response_time)) := by
    rw [← instKeyLt_iff]; simp [h1]
  push_neg at h1'
  rw [instKeyLt_iff] at h2 ⊢
  rcases h2 with h2 | ⟨h2e, h2r⟩
  · exact Or.inl (by omega)
  · rcases Nat.lt_or_ge b.failure_count a.failure_count with hb | hb
    · exact Or.inl (by omega)
    · have hbe : b.failure_count = a.failure_count := by omega
      have hrb : b.response_time ≤ a.response_time := h1'.2 hbe.symm
      exact Or.inr ⟨by omega, lt_of_le_of_lt hrb h2r⟩

/-! ## Soundness of the selection fold -/

theorem pickFold_spec (ps : List (ℕ × InvidiousInstance)) :
    ∀ p : ℕ × InvidiousInstance,
      (ps.foldl (fun best q => if instKeyLt q.2 best.2 then q else best) p = p ∨
        ps.foldl (fun best q => if instKeyLt q.2 best.2 then q else best) p ∈ ps) ∧
      (∀ x, (x = p ∨ x ∈ ps) →
        instKeyLt x.2 (ps.foldl (fun best q => if instKeyLt q.2 best.2 then q else best) p).2
          = false) := by
  induction ps with
  | nil =>
    intro p
    refine ⟨Or.inl rfl, ?_⟩
    intro x hx
    rcases hx with rfl | h
    · exact instKeyLt_irrefl _
    · simp at h
  | cons q ps ih =>
    intro p
    rw [List.foldl_cons]
    by_cases hlt : instKeyLt q.2 p.2 = true
    · rw [if_pos hlt]
      obtain ⟨ihmem, ihmin⟩ := ih q
      constructor
      · rcases ihmem with h | h
        · rw [h]; exact Or.inr (List.mem_cons_self q ps)
        · exact Or.inr (List.mem_cons_of_mem q h)
      · intro x hx
        have hq := ihmin q (Or.inl rfl)
        rcases hx with rfl | hx
        · cases hres : instKeyLt x.2
              ((ps.foldl (fun best r => if instKeyLt r.2 best.2 then r else best) q).2) with
          | false => rfl
          | true => exact absurd (instKeyLt_trans hlt hres) (by simp [hq])
        · rcases List.mem_cons.mp hx with rfl | hx
          · exact hq
          · exact ihmin x (Or.inr hx)
    · rw [if_neg hlt]
      obtain ⟨ihmem, ihmin⟩ := ih p
      constructor
      · rcases ihmem with h | h
        · exact Or.inl h
        · exact Or.inr (List.mem_cons_of_mem q h)
      · intro x hx
        have hp := ihmin p (Or.inl rfl)
        rcases hx with rfl | hx
        · exact hp
        · rcases List.mem_cons.mp hx with rfl | hx
          · cases hres : instKeyLt x.2
                ((ps.foldl (fun best r => if instKeyLt r.2 best.2 then r else best) p).2) with
            | false => rfl
            | true =>
              have hlt2 : instKeyLt x.2 p.2 = false := by simp [hlt]
              exact absurd (instKeyLt_of_not_lt_of_lt hlt2 hres) (by simp [hp])
          · exact ihmin x (Or.inr hx)

theorem pickFirstMin_sound {l : List (ℕ × InvidiousInstance)} {p : ℕ × InvidiousInstance}
    (h : pickFirstMin l = some p) :
    p ∈ l ∧ ∀ x ∈ l, instKeyLt x.2 p.2 = false := by
  cases l with
  | nil => simp [pickFirstMin] at h
  | cons q qs =>
    rw [pickFirstMin, Option.some_inj] at h
    obtain ⟨hmem, hmin⟩ := pickFold_spec qs q
    subst h
    constructor
    · rcases hmem with h | h
      · rw [h]; exact List.mem_cons_self q qs
      · exact List.mem_cons_of_mem q h
    · intro x hx
      rcases List.mem_cons.mp hx with rfl | hx
      · exact hmin x (Or.inl rfl)
      · exact hmin x (Or.inr hx)

/-! ## Index bookkeeping for the enumerated instance list -/

theorem enumFrom_mem_get? (l : List InvidiousInstance) :
    ∀ (k : ℕ) (p : ℕ × InvidiousInstance),
      p ∈ enumFrom k l → k ≤ p.1 ∧ l.get? (p.1 - k) = some p.2 := by
  induction l with
  | nil => intro k p h; simp [enumFrom] at h
  | cons i is ih =>
    intro k p h
    rw [enumFrom] at h
    rcases List.mem_cons.mp h with rfl | h
    · simp
    · obtain ⟨hk, hget⟩ := ih (k + 1) p h
      refine ⟨by omega, ?_⟩
      have heq : p.1 - k = (p.1 - (k + 1)) + 1 := by omega
      rw [heq, List.get?_cons_succ]
      exact hget

theorem get?_mem_enumFrom (l : List InvidiousInstance) :
    ∀ (k m : ℕ) (i : InvidiousInstance),
      l.get? m = some i → (k + m, i) ∈ enumFrom k l := by
  induction l with
  | nil => intro k m i h; simp at h
  | cons j js ih =>
    intro k m i h
    cases m with
    | zero =>
      rw [List.get?_cons_zero, Option.some_inj] at h
      subst h
      rw [enumFrom]
      simp
    | succ m =>
      rw [List.get?_cons_succ] at h
      have hmem := ih (k + 1) m i h
      have heq : k + (m + 1) = (k + 1) + m := by omega
      rw [enumFrom, heq]
      exact List.mem_cons_of_mem _ hmem

/-! ## Claim theorems: resilient client -/

/-- C1.  CORRECTED.  A 429 response does not mark the instance unavailable
and the loop proceeds to the next attempt, but — contrary to the claim —
it DOES increment the instance's consecutive-failure counter by one
(line 173 of the source: `instance.failure_count += 1`). -/
theorem C1_rate_limit_step (inst : InvidiousInstance) (payload : List Char) (rt : ℚ) :
    applyOutcome (RequestOutcome.http 429 payload rt) inst =
      ({ inst with failure_count := inst.failure_count + 1 }, AttemptStep.nextAttempt) := rfl

/-- C1, counterexample to the claim as stated: for a concrete instance with
`failure_count = 0`, a 429 outcome leaves the counter at 1, not 0. -/
theorem C1_counterexample :
    (applyOutcome (RequestOutcome.http 429 [] 0) ⟨pyS "u", 0, 0, true⟩).1.failure_count = 1 ∧
      (1 : ℕ) ≠ 0 :=
  ⟨rfl, by decide⟩

/-- C2.  CORRECTED.  The consecutive-failure counter increases only when a
failure outcome (429, ≥ 500, timeout, connection error, other exception) is
recorded, but — contrary to the claim — a success does not reset it to 0:
line 167 of the source decrements it by one, flooring at 0. -/
theorem C2_failure_accounting (inst : InvidiousInstance) (o : RequestOutcome) :
    (inst.failure_count < (applyOutcome o inst).1.failure_count → o.isFailure = true) ∧
    (∀ payload rt, o = RequestOutcome.http 200 payload rt →
      (applyOutcome o inst).1.failure_count = inst.failure_count - 1) := by
  constructor
  · intro h
    cases o with
    | http status payload rt =>
      by_cases h200 : status = 200
      · subst h200
        have h2 : (applyOutcome (RequestOutcome.http 200 payload rt) inst).1.failure_count =
            inst.failure_count - 1 := rfl
        rw [h2] at h
        omega
      · by_cases h429 : status = 429
        · subst h429
          simp [RequestOutcome.isFailure]
        · by_cases h500 : 500 ≤ status
          · simp [RequestOutcome.isFailure, h500]
          · simp only [applyOutcome, if_neg h200, if_neg h429, if_neg h500] at h
            omega
    | timeout => simp [RequestOutcome.isFailure]
    | connectionError => simp [RequestOutcome.isFailure]
    | otherException => simp [RequestOutcome.isFailure]
  · intro payload rt ho
    subst ho
    simp [applyOutcome]

/-- C2, witness: the failure-accounting theorem applied at a concrete
success outcome on an instance with 5 consecutive failures. -/
theorem C2_witness :
    (applyOutcome (RequestOutcome.http 200 [] 0) ⟨pyS "u", 5, 0, true⟩).1.failure_count =
      (⟨pyS "u", 5, 0, true⟩ : InvidiousInstance).failure_count - 1 :=
  (C2_failure_accounting ⟨pyS "u", 5, 0, true⟩ (RequestOutcome.http 200 [] 0)).2 [] 0 rfl

/-- C2, counterexample to the claim as stated: a success on an instance with
`failure_count = 2` leaves the counter at 1, not 0. -/
theorem C2_counterexample :
    (applyOutcome (RequestOutcome.http 200 [] 0) ⟨pyS "u", 2, 0, true⟩).1.failure_count = 1 ∧
      (1 : ℕ) ≠ 0 :=
  ⟨rfl, by decide⟩

/-- The attempt loop issues at most `fuel` `session.get` calls, whatever
the instance states, probe outcomes and response outcomes are. -/
theorem makeRequestGo_count_le (probe : ℕ → ℕ → ProbeOutcome) (outcome : ℕ → RequestOutcome) :
    ∀ (fuel attempt : ℕ) (insts : List InvidiousInstance),
      (makeRequestGo probe outcome fuel attempt insts).2.2 ≤ fuel := by
  intro fuel
  induction fuel with
  | zero => intro a insts; simp [makeRequestGo]
  | succ n ih =>
    intro a insts
    rw [makeRequestGo]
    split
    · simp
    · rename_i insts1 j heq
      split
      · simp
      · rename_i inst hget
        split
        · simp
        · rename_i inst2 hstep
          have := ih (a + 1) (insts1.set j inst2)
          simp only []
          omega

/-- C6.  CONFIRMED.  `_make_request` with budget `max_retries` performs at
most `max_retries` underlying HTTP request attempts before returning (the
probes of the recovery health check are operations of the instance
registry, not request attempts of the client). -/
theorem C6_attempt_budget (maxRetries : ℕ) (probe : ℕ → ℕ → ProbeOutcome)
    (outcome : ℕ → RequestOutcome) (insts : List InvidiousInstance) :
    (makeRequest maxRetries probe outcome insts).2.2 ≤ maxRetries :=
  makeRequestGo_count_le probe outcome maxRetries 0 insts

/-! ## Claim theorems: instance selection -/

/-- C3.  CORRECTED.  Whenever at least one instance is marked available —
in particular when every instance is available with `failure_count = 3` —
`_get_best_instance` returns an available instance whose
`(failure_count, response_time)` key is minimal (no available instance
compares strictly below it).  The claim's stronger statement, that selection
NEVER returns an empty result, fails: see the counterexample, where every
instance is unavailable and the recovery probe fails. -/
theorem C3_selection_least_failed (probe : ℕ → ProbeOutcome)
    (insts : List InvidiousInstance) (h : ∃ i ∈ insts, i.is_available = true) :
    ∃ j inst, (getBestInstance probe insts).2 = some j ∧
      insts.get? j = some inst ∧ inst.is_available = true ∧
      ∀ i ∈ insts, i.is_available = true → instKeyLt i inst = false := by
  obtain ⟨i0, hi0mem, hi0av⟩ := h
  obtain ⟨m, hm⟩ := List.get?_of_mem hi0mem
  have hmemf : (0 + m, i0) ∈ availableIndexed insts := by
    rw [availableIndexed]
    exact List.mem_filter.mpr ⟨get?_mem_enumFrom insts 0 m i0 hm, hi0av⟩
  cases hpick : pickFirstMin (availableIndexed insts) with
  | none =>
    cases hl : availableIndexed insts with
    | nil => rw [hl] at hmemf; simp at hmemf
    | cons a as => rw [hl, pickFirstMin] at hpick; simp at hpick
  | some p =>
    obtain ⟨hpmem, hpmin⟩ := pickFirstMin_sound hpick
    have hpenum := List.mem_filter.mp (by rw [availableIndexed] at hpmem; exact hpmem)
    obtain ⟨hple, hpget⟩ := enumFrom_mem_get? insts 0 p hpenum.1
    refine ⟨p.1, p.2, ?_, ?_, hpenum.2, ?_⟩
    · rw [getBestInstance, hpick]
    · simpa using hpget
    · intro i himem hiav
      obtain ⟨m2, hm2⟩ := List.get?_of_mem himem
      have : (0 + m2, i) ∈ availableIndexed insts := by
        rw [availableIndexed]
        exact List.mem_filter.mpr ⟨get?_mem_enumFrom insts 0 m2 i hm2, hiav⟩
      exact hpmin _ this

/-- C3, counterexample to the claim as stated: with a single instance marked
unavailable and a recovery probe that fails, `_get_best_instance` returns no
instance at all (the source returns `None`, and `_make_request` then fails). -/
theorem C3_counterexample :
    (getBestInstance (fun _ => ProbeOutcome.exc) [⟨pyS "u", 3, 0, false⟩]).2 = none := rfl

/-- Three instances, all with `failure_count = 3`, all still marked
available — the all-failed scenario of the spec's end-to-end test. -/
def instsAllFailed : List InvidiousInstance :=
  [⟨pyS "a", 3, 5, true⟩, ⟨pyS "b", 3, 2, true⟩, ⟨pyS "c", 3, 7, true⟩]

/-- C3, witness: the selection theorem applied to the concrete all-failed
registry. -/
theorem C3_witness :
    ∃ j inst, (getBestInstance (fun _ => ProbeOutcome.exc) instsAllFailed).2 = some j ∧
      instsAllFailed.get? j = some inst ∧ inst.is_available = true ∧
      ∀ i ∈ instsAllFailed, i.is_available = true → instKeyLt i inst = false :=
  C3_selection_least_failed (fun _ => ProbeOutcome.exc) instsAllFailed
    ⟨⟨pyS "a", 3, 5, true⟩, by simp [instsAllFailed], rfl⟩

/-! ## Claim theorems: validation and scoring -/

/-- C4.  CORRECTED.  Validation enforces only the LOWER duration bound:
any candidate shorter than 90 s is rejected with a nonempty reason string,
and 90 s and 600 s candidates are accepted (the other conditions holding) —
but, contrary to the claim, there is no upper bound in the code: the
counterexample shows a 601 s candidate being accepted. -/
theorem C4_duration_lower_bound_only :
    (∀ (v : VideoData) (cat : List Char), v.duration_seconds < 90 →
      (validate_enhanced_video v cat).1 = false ∧ (validate_enhanced_video v cat).2 ≠ []) ∧
    (validate_enhanced_video video89 (pyS "funny")).1 = false ∧
    (validate_enhanced_video video90 (pyS "funny")).1 = true ∧
    (validate_enhanced_video video600 (pyS "funny")).1 = true := by
  refine ⟨fun v cat h => ?_, by decide, by decide, by decide⟩
  rw [validate_enhanced_video, if_pos h]
  exact ⟨rfl, by decide⟩

/-- C4, witness: the duration theorem applied to the concrete 89 s
candidate. -/
theorem C4_witness :
    (validate_enhanced_video video89 (pyS "funny")).1 = false ∧
      (validate_enhanced_video video89 (pyS "funny")).2 ≠ [] :=
  C4_duration_lower_bound_only.1 video89 (pyS "funny") (by decide)

/-- C4, counterexample to the claim as stated: a candidate with
duration 601 s (and all other conditions satisfied) is ACCEPTED, where the
claim requires rejection. -/
theorem C4_counterexample :
    video601.duration_seconds = 601 ∧
      (validate_enhanced_video video601 (pyS "funny")).1 = true := by
  exact ⟨rfl, by decide⟩

/-- C7.  CONFIRMED.  Whatever the video record, comment sample and category
are — hence whatever the component sub-scores, base score, bonus and penalty
evaluate to — the final enhanced score is clamped to at most 10. -/
theorem C7_final_score_le_ten (video_data : VideoData) (comments_data : CommentFetchResult)
    (category : List Char) :
    (calculate_enhanced_score video_data comments_data category).final_score ≤ 10 := by
  simp only [calculate_enhanced_score]
  exact min_le_right _ _

/-- Every value of the threshold ladder lies in the authority score set. -/
theorem channelAuthorityFromCount_mem (c : ℚ) :
    channelAuthorityFromCount c ∈ ([1/10, 1/5, 2/5, 3/5, 4/5, 1] : List ℚ) := by
  rw [channelAuthorityFromCount]
  split
  · simp
  split
  · simp
  split
  · simp
  split
  · simp
  split
  · simp
  · simp

/-- C10.  CONFIRMED.  The channel-authority score always comes from the
fixed ladder `{0.1, 0.2, 0.4, 0.6, 0.8, 1.0}`, is never below `0.1`, and an
unparseable subscriber-count cell yields exactly the floor `0.1`. -/
theorem C10_authority_range :
    (∀ v : VideoData,
      calculate_channel_authority_score v ∈ ([1/10, 1/5, 2/5, 3/5, 4/5, 1] : List ℚ) ∧
      (1/10 : ℚ) ≤ calculate_channel_authority_score v) ∧
    calculate_channel_authority_score videoUnparseableSubs = 1/10 := by
  have hzero : channelAuthorityFromCount 0 = 1/10 := by
    rw [channelAuthorityFromCount, if_neg (by norm_num), if_neg (by norm_num),
      if_neg (by norm_num), if_neg (by norm_num), if_neg (by norm_num)]
  have hmem : ∀ v : VideoData,
      calculate_channel_authority_score v ∈ ([1/10, 1/5, 2/5, 3/5, 4/5, 1] : List ℚ) := by
    intro v
    rw [calculate_channel_authority_score]
    split
    · exact channelAuthorityFromCount_mem 0
    · dsimp only
      split
      · split
        · exact channelAuthorityFromCount_mem _
        · simp
      · split
        · split
          · exact channelAuthorityFromCount_mem _
          · simp
        · split
          · exact channelAuthorityFromCount_mem _
          · exact channelAuthorityFromCount_mem 0
  have hfloor : ∀ x : ℚ, x ∈ ([1/10, 1/5, 2/5, 3/5, 4/5, 1] : List ℚ) → (1/10 : ℚ) ≤ x := by
    intro x hx
    simp only [List.mem_cons, List.not_mem_nil, or_false] at hx
    rcases hx with rfl | rfl | rfl | rfl | rfl | rfl <;> norm_num
  have hunp : calculate_channel_authority_score videoUnparseableSubs = 1/10 := by
    have hne : ¬ (videoUnparseableSubs.channel_subscriber_count.getD (pyS "0") = []) := by decide
    have hM : (removeChar ',' (upperStr
        (videoUnparseableSubs.channel_subscriber_count.getD (pyS "0")))).contains 'M'
        = false := by decide
    have hK : (removeChar ',' (upperStr
        (videoUnparseableSubs.channel_subscriber_count.getD (pyS "0")))).contains 'K'
        = false := by decide
    have hF : pyFloat? (removeChar ',' (upperStr
        (videoUnparseableSubs.channel_subscriber_count.getD (pyS "0")))) = none := by decide
    rw [calculate_channel_authority_score, if_neg hne]
    dsimp only
    rw [if_neg (by rw [hM]; exact Bool.false_ne_true),
      if_neg (by rw [hK]; exact Bool.false_ne_true), hF]
    exact hzero
  exact ⟨fun v => ⟨hmem v, hfloor _ (hmem v)⟩, hunp⟩

/-- C9.  CORRECTED.  The engagement score is total, returns exactly 0 when
`view_count = 0` (the division guard), and never exceeds 1; but the claimed
lower bound 0 holds only for records whose counts (and parsed like/dislike
ratio) are non-negative — nothing in the source forbids negative cells, and
the counterexample shows a negative result. -/
theorem C9_engagement_bounds (v : VideoData) :
    calculate_engagement_metrics_score v ≤ 1 ∧
    (v.view_count = 0 → calculate_engagement_metrics_score v = 0) ∧
    (0 ≤ v.view_count → 0 ≤ v.like_count → 0 ≤ v.comment_count →
      (∀ r : ℚ, pyFloat? (v.like_dislike_ratio.getD (pyS "0")) = some r → 0 ≤ r) →
      0 ≤ calculate_engagement_metrics_score v) := by
  by_cases hv : v.view_count = 0
  · rw [calculate_engagement_metrics_score, if_pos hv]
    exact ⟨by norm_num, fun _ => rfl, fun _ _ _ _ => le_refl 0⟩
  · rw [calculate_engagement_metrics_score, if_neg hv]
    dsimp only
    refine ⟨min_le_right _ _, fun h => absurd h hv, fun hv0 hl hc hr => ?_⟩
    have hvpos : (0:ℚ) < (v.view_count : ℚ) := by
      exact_mod_cast lt_of_le_of_ne hv0 (Ne.symm hv)
    have hlr : (0:ℚ) ≤ (v.like_count : ℚ) / (v.view_count : ℚ) * 1000 := by
      apply mul_nonneg _ (by norm_num)
      exact div_nonneg (by exact_mod_cast hl) hvpos.le
    have hcr : (0:ℚ) ≤ (v.comment_count : ℚ) / (v.view_count : ℚ) * 1000 := by
      apply mul_nonneg _ (by norm_num)
      exact div_nonneg (by exact_mod_cast hc) hvpos.le
    have hes : (0:ℚ) ≤ min (((v.like_count : ℚ) / (v.view_count : ℚ) * 1000 +
        (v.comment_count : ℚ) / (v.view_count : ℚ) * 1000 * 2) / 20) 1 := by
      apply le_min _ (by norm_num)
      apply div_nonneg _ (by norm_num)
      nlinarith
    cases hp : pyFloat? (v.like_dislike_ratio.getD (pyS "0")) with
    | none => exact le_min hes (by norm_num)
    | some r =>
      have hr0 := hr r hp
      have hr5 : (0:ℚ) ≤ r * (1/5) := mul_nonneg hr0 (by norm_num)
      dsimp only
      apply le_min _ (by norm_num)
      exact add_nonneg hes hr5

/-- C9, witness: the bounds theorem applied to the concrete 90 s candidate
(50 000 views, non-negative counts, absent like/dislike ratio). -/
theorem C9_witness : 0 ≤ calculate_engagement_metrics_score video90 := by
  have hf : pyFloat? (video90.like_dislike_ratio.getD (pyS "0")) = some ((0:ℕ) : ℚ) := rfl
  refine (C9_engagement_bounds video90).2.2 (by decide) (by decide) (by decide) ?_
  intro r hr
  rw [hf, Option.some_inj] at hr
  rw [← hr]
  norm_num

/-- C9, counterexample to the claim's unconditional `[0, 1]` range: a record
with `view_count = 1` and `like_count = -100` produces a negative score. -/
theorem C9_counterexample : calculate_engagement_metrics_score videoNegativeLikes < 0 := by
  have hf : pyFloat? (videoNegativeLikes.like_dislike_ratio.getD (pyS "0"))
      = some ((0:ℕ) : ℚ) := rfl
  have hvc : videoNegativeLikes.view_count = 1 := rfl
  have hlc : videoNegativeLikes.like_count = -100 := rfl
  have hcc : videoNegativeLikes.comment_count = 0 := rfl
  rw [calculate_engagement_metrics_score, if_neg (by rw [hvc]; decide)]
  dsimp only
  rw [hf, hvc, hlc, hcc]
  push_cast
  rw [show ((-100 : ℚ) / 1 * 1000 + (0:ℚ) / 1 * 1000 * 2) / 20 = -5000 by norm_num]
  rw [min_eq_left (by norm_num : (-5000:ℚ) ≤ 1)]
  rw [min_eq_left (by norm_num : (-5000:ℚ) + 0 * (1/5) ≤ 1)]
  norm_num

/-- The heartwarming category-validation component, written out as the
keyword-count formula the source actually computes. -/
theorem analyze_heartwarming_validation (comments : List (List Char))
    (h : ¬ comments = []) :
    (analyze_comments_for_category comments (pyS "heartwarming")).category_validation =
      min ((countWordsIn heartwarmingPositiveEmotions (lowerStr (joinSpace comments)) : ℚ) /
        max ((comments.length : ℚ) * (5/100)) 1) 1 := by
  rw [analyze_comments_for_category, if_neg h]
  dsimp only
  rw [if_pos rfl]

/-- C5.  CORRECTED.  The category-validation component equals
`min(K / max(comment_count * 0.05, 1), 1.0)` where `K` counts how many of
the seven fixed heartwarming KEYWORDS occur as substrings of the joined
lowercased comment text — not, as the claim reads the formula, how many
COMMENTS contain a keyword.  `K` is therefore bounded by 7, and the spec's
400-comment scenario yields 2/20 = 0.1, not 1.0. -/
theorem C5_keyword_count_formula (comments : List (List Char)) (h : comments ≠ []) :
    (analyze_comments_for_category comments (pyS "heartwarming")).category_validation =
      min ((countWordsIn heartwarmingPositiveEmotions (lowerStr (joinSpace comments)) : ℚ) /
        max ((comments.length : ℚ) * (5/100)) 1) 1 :=
  analyze_heartwarming_validation comments h

/-- C5, witness: the formula theorem applied to a concrete one-comment
sample. -/
theorem C5_witness :
    (analyze_comments_for_category [pyS "nice"] (pyS "heartwarming")).category_validation =
      min ((countWordsIn heartwarmingPositiveEmotions (lowerStr (joinSpace [pyS "nice"])) : ℚ) /
        max ((([pyS "nice"] : List (List Char)).length : ℚ) * (5/100)) 1) 1 :=
  C5_keyword_count_formula [pyS "nice"] (by decide)

/-- C5, counterexample to the claim's per-comment reading: on 21 identical
comments "tears", the code computes 20/21 (one keyword present), while the
spec formula with comment-counting hits computes 1.0. -/
theorem C5_counterexample :
    (analyze_comments_for_category (List.replicate 21 (pyS "tears"))
        (pyS "heartwarming")).category_validation ≠
      specCategoryValidationHeartwarming (List.replicate 21 (pyS "tears")) := by
  have hcode : countWordsIn heartwarmingPositiveEmotions
      (lowerStr (joinSpace (List.replicate 21 (pyS "tears")))) = 1 := by decide
  have hspec : specKeywordHitsHeartwarming (List.replicate 21 (pyS "tears")) = 21 := by decide
  rw [analyze_heartwarming_validation _ (by decide), specCategoryValidationHeartwarming,
    hcode, hspec, List.length_replicate]
  push_cast
  rw [max_eq_left (by norm_num : (1:ℚ) ≤ 21 * (5/100))]
  rw [min_eq_left (by norm_num : (1:ℚ) / (21 * (5/100)) ≤ 1)]
  rw [min_eq_right (by norm_num : (1:ℚ) ≤ 21 / (21 * (5/100)))]
  norm_num

/-- The comment-accumulation loop keeps the list duplicate-free and keeps
only comments whose stripped text is longer than 5 characters. -/
theorem collectComments_sound (cap : Option ℕ) :
    ∀ (items acc : List (List Char)), acc.Nodup → (∀ c ∈ acc, 5 < (stripStr c).length) →
      (collectComments cap acc items).Nodup ∧
        ∀ c ∈ collectComments cap acc items, 5 < (stripStr c).length := by
  intro items
  induction items with
  | nil =>
    intro acc h1 h2
    rw [collectComments]
    exact ⟨h1, h2⟩
  | cons t ts ih =>
    intro acc h1 h2
    have hstep : (acc ++ [t]).Nodup → (∀ c ∈ acc ++ [t], 5 < (stripStr c).length) →
        (collectComments cap (acc ++ [t]) ts).Nodup ∧
          ∀ c ∈ collectComments cap (acc ++ [t]) ts, 5 < (stripStr c).length :=
      fun a b => ih (acc ++ [t]) a b
    have hnodup : (5 < (stripStr t).length ∧ t ∉ acc) → (acc ++ [t]).Nodup := by
      intro hc
      rw [List.nodup_append]
      exact ⟨h1, List.nodup_singleton t, by simp [hc.2]⟩
    have hmemp : (5 < (stripStr t).length ∧ t ∉ acc) →
        ∀ c ∈ acc ++ [t], 5 < (stripStr c).length := by
      intro hc c hcm
      rcases List.mem_append.mp hcm with hcm | hcm
      · exact h2 c hcm
      · rw [List.mem_singleton.mp hcm]; exact hc.1
    simp only [collectComments]
    cases cap with
    | some c =>
      dsimp only
      by_cases hcap : c ≤ acc.length
      · rw [if_pos hcap]; exact ⟨h1, h2⟩
      · rw [if_neg hcap]
        by_cases hc : 5 < (stripStr t).length ∧ t ∉ acc
        · rw [if_pos hc]; exact ih (acc ++ [t]) (hnodup hc) (hmemp hc)
        · rw [if_neg hc]; exact ih acc h1 h2
    | none =>
      dsimp only
      by_cases hc : 5 < (stripStr t).length ∧ t ∉ acc
      · rw [if_pos hc]; exact ih (acc ++ [t]) (hnodup hc) (hmemp hc)
      · rw [if_neg hc]; exact ih acc h1 h2

/-- The first-pass comment list is duplicate-free and length-filtered. -/
theorem fetchPass1_sound (resp1 : Option (List (List Char))) :
    (fetchPass1 resp1).Nodup ∧ ∀ c ∈ fetchPass1 resp1, 5 < (stripStr c).length := by
  cases resp1 with
  | none => simp [fetchPass1]
  | some items =>
    rw [fetchPass1]
    exact collectComments_sound none items [] List.nodup_nil (by simp)

/-- The second pass preserves the invariant. -/
theorem fetchPass2_sound (resp2 : Option (List (List Char))) (target : ℕ)
    (c1 : List (List Char)) (h1 : c1.Nodup) (h2 : ∀ c ∈ c1, 5 < (stripStr c).length) :
    (fetchPass2 resp2 target c1).Nodup ∧
      ∀ c ∈ fetchPass2 resp2 target c1, 5 < (stripStr c).length := by
  unfold fetchPass2
  split
  · cases resp2 with
    | none => exact ⟨h1, h2⟩
    | some items => exact collectComments_sound (some target) items c1 h1 h2
  · exact ⟨h1, h2⟩

/-- The third pass preserves the invariant. -/
theorem fetchPass3_sound (resp3 : Option (List (List Char))) (tok : Bool) (target : ℕ)
    (c2 : List (List Char)) (h1 : c2.Nodup) (h2 : ∀ c ∈ c2, 5 < (stripStr c).length) :
    (fetchPass3 resp3 tok target c2).Nodup ∧
      ∀ c ∈ fetchPass3 resp3 tok target c2, 5 < (stripStr c).length := by
  unfold fetchPass3
  split
  · cases resp3 with
    | none => exact ⟨h1, h2⟩
    | some items => exact collectComments_sound (some target) items c2 h1 h2
  · exact ⟨h1, h2⟩

/-- C8.  CONFIRMED.  For every sequence of responses the returned comment
list is pairwise distinct, contains no comment of stripped length ≤ 5, and
holds at most `target_count` entries; and a first-pass stream `[x, x, y]`
(with no length violation) yields exactly `[x, y]`. -/
theorem C8_dedup_filter_cap :
    (∀ (r1 r2 r3 : Option (List (List Char))) (tok : Bool) (n : ℕ),
      (fetch_controlled_comments r1 r2 r3 tok n).comments.Nodup ∧
      (∀ c ∈ (fetch_controlled_comments r1 r2 r3 tok n).comments, 5 < (stripStr c).length) ∧
      (fetch_controlled_comments r1 r2 r3 tok n).comments.length ≤ n) ∧
    (fetch_controlled_comments (some [pyS "aaaaaa", pyS "aaaaaa", pyS "bbbbbb"]) (some [])
      none false 400).comments = [pyS "aaaaaa", pyS "bbbbbb"] := by
  constructor
  · intro r1 r2 r3 tok n
    obtain ⟨n1, m1⟩ := fetchPass1_sound r1
    obtain ⟨n2, m2⟩ := fetchPass2_sound r2 n _ n1 m1
    obtain ⟨n3, m3⟩ := fetchPass3_sound r3 tok n _ n2 m2
    refine ⟨?_, ?_, ?_⟩
    · show ((fetchPass3 r3 tok n (fetchPass2 r2 n (fetchPass1 r1))).take n).Nodup
      exact n3.sublist (List.take_sublist _ _)
    · intro c hc
      exact m3 c (List.take_subset _ _ hc)
    · show ((fetchPass3 r3 tok n (fetchPass2 r2 n (fetchPass1 r1))).take n).length ≤ n
      rw [List.length_take]
      exact min_le_left _ _
  · decide

/-- C8, witness: the invariant theorem applied at a concrete stream (the
length-filter clause instantiated at a member of the result). -/
theorem C8_witness : 5 < (stripStr (pyS "helloworld")).length :=
  (C8_dedup_filter_cap.1 (some [pyS "helloworld"]) none none false 3).2.1
    (pyS "helloworld") (by decide)
